import Mathlib

/-!
Verification development for the gis_maps backend (fence lifecycle engine and
zoom-adaptive delivery pipeline).  The definitions below are a shallow
embedding of the Python sources `config.py`, `zoom_strategy_config.py`,
`services.py` and `fence_services.py`; theorems check the natural-language
specification against them.
-/

namespace GisMaps

/-! ## Zoom strategy tables (`zoom_strategy_config.py`) -/

/-- One entry of `LAYER_ZOOM_STRATEGIES`: `min_zoom`, `max_zoom`, the
`always_load` flag and the sparse `zoom threshold -> feature limit` map
(kept as an association list in insertion order). -/
structure LayerStrategy where
  minZoom : Int
  maxZoom : Int
  alwaysLoad : Bool
  limits : List (Int × Nat)
deriving Repr, DecidableEq

/-- The static per-layer table `LAYER_ZOOM_STRATEGIES` from
`zoom_strategy_config.py`, as a lookup function (Python dict access). -/
def LAYER_ZOOM_STRATEGIES : String → Option LayerStrategy
  | "fences" => some ⟨1, 20, true, [(1, 1000), (10, 3000), (15, 5000)]⟩
  | "buildings" => some ⟨6, 20, false, [(6, 5000), (10, 15000), (12, 30000), (15, 50000)]⟩
  | "land_polygons" => some ⟨4, 20, false, [(4, 2000), (8, 5000), (10, 8000), (12, 6000), (14, 3000)]⟩
  | "roads" => some ⟨7, 20, false, [(7, 3000), (9, 5000), (11, 10000), (13, 20000), (15, 30000)]⟩
  | "pois" => some ⟨9, 20, false, [(9, 3000), (12, 5000), (16, 8000)]⟩
  | "water" => some ⟨8, 20, false, [(8, 5000), (12, 8000), (16, 10000)]⟩
  | "railways" => some ⟨10, 20, false, [(10, 3000), (14, 5000), (16, 8000)]⟩
  | "traffic" => some ⟨13, 20, false, [(13, 3000), (16, 6000)]⟩
  | "worship" => some ⟨12, 20, false, [(12, 5000), (16, 8000)]⟩
  | "landuse" => some ⟨10, 20, false, [(10, 8000), (14, 15000), (16, 20000)]⟩
  | "transport" => some ⟨9, 20, false, [(9, 1000), (12, 2000), (16, 3000)]⟩
  | "places" => some ⟨6, 20, false, [(6, 500), (8, 1000), (12, 2000), (16, 3000)]⟩
  | "natural" => some ⟨8, 20, false, [(8, 2000), (10, 3000), (14, 5000), (16, 8000)]⟩
  | _ => none

/-- `HIGH_ZOOM_STRATEGY['zoom_threshold']`. -/
def HIGH_ZOOM_THRESHOLD : Int := 16

/-- Python's builtin `max` over a list (empty list has no maximum). -/
def listMax {α : Type} [LinearOrder α] : List α → Option α
  | [] => none
  | x :: xs =>
    match listMax xs with
    | none => some x
    | some m => some (max x m)

/-- Python's builtin `min` over a list (empty list has no minimum). -/
def listMin {α : Type} [LinearOrder α] : List α → Option α
  | [] => none
  | x :: xs =>
    match listMin xs with
    | none => some x
    | some m => some (min x m)

/-! ## Zoom policy resolver (`config.py`) -/

/-- `calc_simplify_tolerance` from `config.py` (tolerances are the exact
integers 100/20/5/1, so `Nat` suffices). -/
def calc_simplify_tolerance (zoom : Int) : Nat :=
  if zoom < 10 then 100
  else if zoom < 12 then 20
  else if zoom < 15 then 5
  else 1

/-- `calc_cache_ttl` from `config.py`: `max(300, 600 - zoom * 15)`. -/
def calc_cache_ttl (zoom : Int) : Int := max 300 (600 - zoom * 15)

/-- The `reason` field of the strategy dict returned by
`get_layer_zoom_strategy` (the code uses strings; `zoomStrategy t` stands
for the interpolated string `f'zoom_{t}_strategy'`). -/
inductive PolicyReason where
  | layerNotConfigured
  | alwaysLoad
  | zoomTooLow
  | highZoomAllLayers
  | zoomStrategy (targetZoom : Int)
  | noSuitableZoom
deriving Repr, DecidableEq

/-- The dict returned by `get_layer_zoom_strategy`: either a no-load
decision carrying a reason, or a load decision carrying the feature limit,
the simplification tolerance and the cache TTL. -/
inductive ZoomPolicy where
  | noLoad (reason : PolicyReason)
  | load (reason : PolicyReason) (maxFeatures : Nat) (simplifyTolerance : Nat) (cacheTtl : Int)
deriving Repr, DecidableEq

/-- Python dict indexing `limits[target_zoom]` (the key is always present
at every call site, so the default 0 is never produced). -/
def lookupLimit (limits : List (Int × Nat)) (t : Int) : Nat :=
  (limits.lookup t).getD 0

/-- Body of `get_layer_zoom_strategy` after the strategy has been fetched
from the table (`config.py`, lines 514-560). -/
def resolveStrategy (s : LayerStrategy) (zoom : Int) : ZoomPolicy :=
  if s.alwaysLoad then
    let availableZooms := (s.limits.map Prod.fst).filter (fun z => decide (z ≤ zoom))
    let targetZoom :=
      match listMax availableZooms with
      | some m => m
      | none => (listMin (s.limits.map Prod.fst)).getD 0
    .load .alwaysLoad (lookupLimit s.limits targetZoom) 0 (calc_cache_ttl zoom)
  else if zoom < s.minZoom then .noLoad .zoomTooLow
  else if HIGH_ZOOM_THRESHOLD ≤ zoom then
    .load .highZoomAllLayers ((listMax (s.limits.map Prod.snd)).getD 5000) 0 (calc_cache_ttl zoom)
  else
    match listMax ((s.limits.map Prod.fst).filter (fun z => decide (z ≤ zoom))) with
    | none => .noLoad .noSuitableZoom
    | some t =>
        .load (.zoomStrategy t) (lookupLimit s.limits t) (calc_simplify_tolerance zoom)
          (calc_cache_ttl zoom)

/-- `get_layer_zoom_strategy(layer_name, zoom)` from `config.py`. -/
def get_layer_zoom_strategy (layerName : String) (zoom : Int) : ZoomPolicy :=
  match LAYER_ZOOM_STRATEGIES layerName with
  | none => .noLoad .layerNotConfigured
  | some s => resolveStrategy s zoom

/-! ## Spec-side characterisations for the resolver (spec section 4.2) -/

/-- `t` is the greatest configured threshold that does not exceed `zoom`. -/
def GreatestThresholdLE (limits : List (Int × Nat)) (zoom t : Int) : Prop :=
  t ∈ limits.map Prod.fst ∧ t ≤ zoom ∧ ∀ u ∈ limits.map Prod.fst, u ≤ zoom → u ≤ t

/-- `t` is the smallest configured threshold of the layer. -/
def SmallestThreshold (limits : List (Int × Nat)) (t : Int) : Prop :=
  t ∈ limits.map Prod.fst ∧ ∀ u ∈ limits.map Prod.fst, t ≤ u

/-- `m` is the maximum configured feature limit of the layer. -/
def MaxConfiguredLimit (limits : List (Int × Nat)) (m : Nat) : Prop :=
  m ∈ limits.map Prod.snd ∧ ∀ v ∈ limits.map Prod.snd, v ≤ m

/-! ## Helper lemmas about `listMax`, `listMin` and `List.lookup` -/

lemma listMax_eq_none_iff {α : Type} [LinearOrder α] (l : List α) :
    listMax l = none ↔ l = [] := by
  cases l with
  | nil => simp [listMax]
  | cons x xs =>
    simp only [listMax]
    cases h : listMax xs <;> simp

lemma listMax_spec {α : Type} [LinearOrder α] (l : List α) (m : α)
    (h : listMax l = some m) : m ∈ l ∧ ∀ x ∈ l, x ≤ m := by
  induction l generalizing m with
  | nil => simp [listMax] at h
  | cons x xs ih =>
    cases hx : listMax xs with
    | none =>
      have hxs : xs = [] := (listMax_eq_none_iff xs).1 hx
      subst hxs
      simp only [listMax] at h
      cases h
      simp
    | some m' =>
      simp only [listMax, hx] at h
      cases h
      obtain ⟨hmem, hle⟩ := ih m' hx
      constructor
      · rcases max_choice x m' with hc | hc
        · rw [hc]; exact List.mem_cons_self x xs
        · rw [hc]; exact List.mem_cons_of_mem x hmem
      · intro y hy
        rcases List.mem_cons.1 hy with hyx | hyxs
        · subst hyx; exact le_max_left _ _
        · exact le_trans (hle y hyxs) (le_max_right _ _)

lemma listMin_eq_none_iff {α : Type} [LinearOrder α] (l : List α) :
    listMin l = none ↔ l = [] := by
  cases l with
  | nil => simp [listMin]
  | cons x xs =>
    simp only [listMin]
    cases h : listMin xs <;> simp

lemma listMin_spec {α : Type} [LinearOrder α] (l : List α) (m : α)
    (h : listMin l = some m) : m ∈ l ∧ ∀ x ∈ l, m ≤ x := by
  induction l generalizing m with
  | nil => simp [listMin] at h
  | cons x xs ih =>
    cases hx : listMin xs with
    | none =>
      have hxs : xs = [] := (listMin_eq_none_iff xs).1 hx
      subst hxs
      simp only [listMin] at h
      cases h
      simp
    | some m' =>
      simp only [listMin, hx] at h
      cases h
      obtain ⟨hmem, hle⟩ := ih m' hx
      constructor
      · rcases min_choice x m' with hc | hc
        · rw [hc]; exact List.mem_cons_self x xs
        · rw [hc]; exact List.mem_cons_of_mem x hmem
      · intro y hy
        rcases List.mem_cons.1 hy with hyx | hyxs
        · subst hyx; exact min_le_left _ _
        · exact le_trans (min_le_right _ _) (hle y hyxs)

lemma lookup_mem {β : Type} (l : List (Int × β)) (t : Int) (v : β)
    (h : l.lookup t = some v) : (t, v) ∈ l := by
  induction l with
  | nil => simp [List.lookup] at h
  | cons p ps ih =>
    rw [List.lookup] at h
    by_cases he : t = p.1
    · rw [show (t == p.1) = true from beq_iff_eq.2 he] at h
      simp only [cond] at h
      cases h
      subst he
      exact List.mem_cons_self _ _
    · rw [show (t == p.1) = false from beq_eq_false_iff_ne.2 he] at h
      simp only [cond] at h
      exact List.mem_cons_of_mem _ (ih h)

lemma mem_keys_exists_lookup {β : Type} (l : List (Int × β)) (t : Int)
    (h : t ∈ l.map Prod.fst) : ∃ v, l.lookup t = some v := by
  induction l with
  | nil => simp at h
  | cons p ps ih =>
    rw [List.lookup]
    by_cases he : t = p.1
    · rw [show (t == p.1) = true from beq_iff_eq.2 he]
      exact ⟨p.2, rfl⟩
    · rw [show (t == p.1) = false from beq_eq_false_iff_ne.2 he]
      apply ih
      rcases List.mem_map.1 h with ⟨q, hq, hqt⟩
      rcases List.mem_cons.1 hq with hqp | hqs
      · exact absurd (hqt ▸ hqp ▸ rfl : t = p.1) he
      · exact List.mem_map.2 ⟨q, hqs, hqt⟩

/-- Every strategy stored in `LAYER_ZOOM_STRATEGIES` has a non-empty
limits map. -/
lemma table_limits_ne_nil (name : String) (s : LayerStrategy)
    (h : LAYER_ZOOM_STRATEGIES name = some s) : s.limits ≠ [] := by
  unfold LAYER_ZOOM_STRATEGIES at h
  split at h <;> cases h <;> decide

/-! ## Branch characterisations of the resolver -/

lemma resolveStrategy_always (s : LayerStrategy) (zoom : Int)
    (hal : s.alwaysLoad = true) (hne : s.limits ≠ []) :
    ∃ t l, (t, l) ∈ s.limits ∧
      (GreatestThresholdLE s.limits zoom t ∨
        ((∀ u ∈ s.limits.map Prod.fst, ¬ u ≤ zoom) ∧ SmallestThreshold s.limits t)) ∧
      resolveStrategy s zoom = .load .alwaysLoad l 0 (calc_cache_ttl zoom) := by
  have hkeys : s.limits.map Prod.fst ≠ [] := fun hcon => hne (by simpa using hcon)
  cases hmax : listMax ((s.limits.map Prod.fst).filter (fun z => decide (z ≤ zoom))) with
  | some m =>
    obtain ⟨hmem, hbound⟩ := listMax_spec _ _ hmax
    have hmk : m ∈ s.limits.map Prod.fst := (List.mem_filter.1 hmem).1
    have hmz : m ≤ zoom := by
      have := (List.mem_filter.1 hmem).2
      simpa using this
    obtain ⟨v, hv⟩ := mem_keys_exists_lookup _ _ hmk
    refine ⟨m, v, lookup_mem _ _ _ hv, ?_, ?_⟩
    · exact Or.inl ⟨hmk, hmz, fun u hu huz => hbound u (List.mem_filter.2 ⟨hu, by simpa using huz⟩)⟩
    · simp only [resolveStrategy, hal, if_true, hmax, lookupLimit, hv, Option.getD_some]
  | none =>
    have hfe : (s.limits.map Prod.fst).filter (fun z => decide (z ≤ zoom)) = [] :=
      (listMax_eq_none_iff _).1 hmax
    have hnone : ∀ u ∈ s.limits.map Prod.fst, ¬ u ≤ zoom := by
      intro u hu huz
      have hmemf : u ∈ (s.limits.map Prod.fst).filter (fun z => decide (z ≤ zoom)) :=
        List.mem_filter.2 ⟨hu, by simpa using huz⟩
      rw [hfe] at hmemf
      simp at hmemf
    cases hmin : listMin (s.limits.map Prod.fst) with
    | none => exact absurd ((listMin_eq_none_iff _).1 hmin) hkeys
    | some mn =>
      obtain ⟨hmn, hmnle⟩ := listMin_spec _ _ hmin
      obtain ⟨v, hv⟩ := mem_keys_exists_lookup _ _ hmn
      refine ⟨mn, v, lookup_mem _ _ _ hv, Or.inr ⟨hnone, hmn, hmnle⟩, ?_⟩
      simp only [resolveStrategy, hal, if_true, hmax, hmin, Option.getD_some, lookupLimit, hv]

lemma resolveStrategy_zoom_too_low (s : LayerStrategy) (zoom : Int)
    (hal : s.alwaysLoad = false) (h : zoom < s.minZoom) :
    resolveStrategy s zoom = .noLoad .zoomTooLow := by
  simp [resolveStrategy, hal, h]

lemma resolveStrategy_high_zoom (s : LayerStrategy) (zoom : Int)
    (hal : s.alwaysLoad = false) (hz : s.minZoom ≤ zoom) (h16 : (16 : Int) ≤ zoom)
    (hne : s.limits ≠ []) :
    ∃ m, MaxConfiguredLimit s.limits m ∧
      resolveStrategy s zoom = .load .highZoomAllLayers m 0 (calc_cache_ttl zoom) := by
  have hvals : s.limits.map Prod.snd ≠ [] := fun hcon => hne (by simpa using hcon)
  cases hmax : listMax (s.limits.map Prod.snd) with
  | none => exact absurd ((listMax_eq_none_iff _).1 hmax) hvals
  | some m =>
    obtain ⟨hm, hb⟩ := listMax_spec _ _ hmax
    refine ⟨m, ⟨hm, hb⟩, ?_⟩
    simp [resolveStrategy, hal, not_lt.2 hz, HIGH_ZOOM_THRESHOLD, h16, hmax]

lemma resolveStrategy_mid (s : LayerStrategy) (zoom : Int)
    (hal : s.alwaysLoad = false) (hz : s.minZoom ≤ zoom) (h16 : zoom < 16) :
    (∃ t l, (t, l) ∈ s.limits ∧ GreatestThresholdLE s.limits zoom t ∧
      resolveStrategy s zoom =
        .load (.zoomStrategy t) l (calc_simplify_tolerance zoom) (calc_cache_ttl zoom)) ∨
    ((∀ u ∈ s.limits.map Prod.fst, ¬ u ≤ zoom) ∧
      resolveStrategy s zoom = .noLoad .noSuitableZoom) := by
  have h16' : ¬ HIGH_ZOOM_THRESHOLD ≤ zoom := by
    simp only [HIGH_ZOOM_THRESHOLD]
    omega
  cases hmax : listMax ((s.limits.map Prod.fst).filter (fun z => decide (z ≤ zoom))) with
  | some t =>
    obtain ⟨hmem, hbound⟩ := listMax_spec _ _ hmax
    have htk : t ∈ s.limits.map Prod.fst := (List.mem_filter.1 hmem).1
    have htz : t ≤ zoom := by
      have := (List.mem_filter.1 hmem).2
      simpa using this
    obtain ⟨v, hv⟩ := mem_keys_exists_lookup _ _ htk
    left
    refine ⟨t, v, lookup_mem _ _ _ hv,
      ⟨htk, htz, fun u hu huz => hbound u (List.mem_filter.2 ⟨hu, by simpa using huz⟩)⟩, ?_⟩
    simp only [resolveStrategy, hal, Bool.false_eq_true, if_false, not_lt.2 hz, if_neg h16',
      if_neg (not_lt.2 hz), hmax, lookupLimit, hv, Option.getD_some]
  | none =>
    have hfe : (s.limits.map Prod.fst).filter (fun z => decide (z ≤ zoom)) = [] :=
      (listMax_eq_none_iff _).1 hmax
    right
    constructor
    · intro u hu huz
      have hmemf : u ∈ (s.limits.map Prod.fst).filter (fun z => decide (z ≤ zoom)) :=
        List.mem_filter.2 ⟨hu, by simpa using huz⟩
      rw [hfe] at hmemf
      simp at hmemf
    · simp only [resolveStrategy, hal, Bool.false_eq_true, if_false, if_neg (not_lt.2 hz),
        if_neg h16', hmax]

lemma calc_cache_ttl_eq (zoom : Int) : calc_cache_ttl zoom = max 300 (600 - 15 * zoom) := by
  unfold calc_cache_ttl
  rw [Int.mul_comm]

/-- C1: for every layer name and integer zoom, `get_layer_zoom_strategy`
returns exactly what the spec prescribes: an unconfigured layer yields a
no-load policy with the not-configured reason; an `always_load` layer
loads with the feature limit of the greatest configured threshold at most
`zoom` (falling back to the smallest threshold when none qualifies), zero
simplification and cache TTL `max(300, 600 - 15*zoom)`; otherwise a zoom
below `min_zoom` does not load (zoom too low); zoom at least 16 loads the
layer's maximum configured limit with zero simplification; in the
remaining case the limit comes from the largest configured threshold at
most `zoom` with the stepped simplification tolerance (100 below zoom 10,
20 below 12, 5 below 15, else 1) and the same TTL formula, and when no
threshold qualifies the layer does not load.  The resolver is a pure
function, hence deterministic. -/
theorem get_layer_zoom_strategy_matches_spec (name : String) (zoom : Int) :
    (LAYER_ZOOM_STRATEGIES name = none →
      get_layer_zoom_strategy name zoom = .noLoad .layerNotConfigured) ∧
    (∀ s, LAYER_ZOOM_STRATEGIES name = some s →
      (s.alwaysLoad = true →
        ∃ t l, (t, l) ∈ s.limits ∧
          (GreatestThresholdLE s.limits zoom t ∨
            ((∀ u ∈ s.limits.map Prod.fst, ¬ u ≤ zoom) ∧ SmallestThreshold s.limits t)) ∧
          get_layer_zoom_strategy name zoom =
            .load .alwaysLoad l 0 (max 300 (600 - 15 * zoom))) ∧
      (s.alwaysLoad = false → zoom < s.minZoom →
        get_layer_zoom_strategy name zoom = .noLoad .zoomTooLow) ∧
      (s.alwaysLoad = false → s.minZoom ≤ zoom → 16 ≤ zoom →
        ∃ m, MaxConfiguredLimit s.limits m ∧
          get_layer_zoom_strategy name zoom =
            .load .highZoomAllLayers m 0 (max 300 (600 - 15 * zoom))) ∧
      (s.alwaysLoad = false → s.minZoom ≤ zoom → zoom < 16 →
        (∃ t l, (t, l) ∈ s.limits ∧ GreatestThresholdLE s.limits zoom t ∧
          get_layer_zoom_strategy name zoom =
            .load (.zoomStrategy t) l (calc_simplify_tolerance zoom)
              (max 300 (600 - 15 * zoom))) ∨
        ((∀ u ∈ s.limits.map Prod.fst, ¬ u ≤ zoom) ∧
          get_layer_zoom_strategy name zoom = .noLoad .noSuitableZoom))) ∧
    get_layer_zoom_strategy name zoom = get_layer_zoom_strategy name zoom := by
  refine ⟨?_, ?_, rfl⟩
  · intro h
    simp [get_layer_zoom_strategy, h]
  · intro s hs
    have hne := table_limits_ne_nil name s hs
    have hget : get_layer_zoom_strategy name zoom = resolveStrategy s zoom := by
      simp [get_layer_zoom_strategy, hs]
    refine ⟨?_, ?_, ?_, ?_⟩
    · intro hal
      obtain ⟨t, l, hmem, hchar, heq⟩ := resolveStrategy_always s zoom hal hne
      exact ⟨t, l, hmem, hchar, by rw [hget, heq, calc_cache_ttl_eq]⟩
    · intro hal hlt
      rw [hget, resolveStrategy_zoom_too_low s zoom hal hlt]
    · intro hal hz h16
      obtain ⟨m, hm, heq⟩ := resolveStrategy_high_zoom s zoom hal hz h16 hne
      exact ⟨m, hm, by rw [hget, heq, calc_cache_ttl_eq]⟩
    · intro hal hz h16
      rcases resolveStrategy_mid s zoom hal hz h16 with ⟨t, l, hmem, hchar, heq⟩ | ⟨hnone, heq⟩
      · exact Or.inl ⟨t, l, hmem, hchar, by rw [hget, heq, calc_cache_ttl_eq]⟩
      · exact Or.inr ⟨hnone, by rw [hget, heq]⟩

/-- Witness for C1: the unconfigured-layer case at a concrete input, and
the zoom-too-low case for the `roads` layer at zoom 3 (the spec's own
end-to-end scenario 4). -/
theorem get_layer_zoom_strategy_matches_spec_witness :
    get_layer_zoom_strategy "nonexistent" 8 = .noLoad .layerNotConfigured ∧
    get_layer_zoom_strategy "roads" 3 = .noLoad .zoomTooLow :=
  ⟨(get_layer_zoom_strategy_matches_spec "nonexistent" 8).1 rfl,
   (((get_layer_zoom_strategy_matches_spec "roads" 3).2.1
      ⟨7, 20, false, [(7, 3000), (9, 5000), (11, 10000), (13, 20000), (15, 30000)]⟩
      rfl).2.1 rfl (by decide))⟩

/-! ## Zoom monotonicity (C4) -/

/-- The `max_features` field of a policy (0 when the layer does not load). -/
def maxFeaturesOf : ZoomPolicy → Nat
  | .noLoad _ => 0
  | .load _ m _ _ => m

/-- The `load_data` field of a policy. -/
def loadsData : ZoomPolicy → Bool
  | .noLoad _ => false
  | .load _ _ _ _ => true

lemma resolveStrategy_always_loads (s : LayerStrategy) (zoom : Int)
    (hal : s.alwaysLoad = true) : loadsData (resolveStrategy s zoom) = true := by
  simp [resolveStrategy, hal, loadsData]

/-- For a non-`always_load` strategy whose limit values are monotone in the
threshold and whose `min_zoom` is itself a configured threshold, the
resolved feature limit is monotone in zoom above `min_zoom`. -/
lemma resolveStrategy_limit_mono (s : LayerStrategy)
    (hal : s.alwaysLoad = false)
    (hmono : ∀ p ∈ s.limits, ∀ q ∈ s.limits, p.1 ≤ q.1 → p.2 ≤ q.2)
    (hmin : s.minZoom ∈ s.limits.map Prod.fst)
    (z1 z2 : Int) (h1 : s.minZoom ≤ z1) (h12 : z1 ≤ z2) :
    maxFeaturesOf (resolveStrategy s z1) ≤ maxFeaturesOf (resolveStrategy s z2) := by
  have h2 : s.minZoom ≤ z2 := le_trans h1 h12
  have hne : s.limits ≠ [] := by
    intro hcon
    rw [hcon] at hmin
    simp at hmin
  by_cases h16a : (16 : Int) ≤ z1
  · have h16b : (16 : Int) ≤ z2 := le_trans h16a h12
    obtain ⟨m1, hm1, heq1⟩ := resolveStrategy_high_zoom s z1 hal h1 h16a hne
    obtain ⟨m2, hm2, heq2⟩ := resolveStrategy_high_zoom s z2 hal h2 h16b hne
    rw [heq1, heq2]
    simpa [maxFeaturesOf] using hm2.2 m1 hm1.1
  · have h16a' : z1 < 16 := not_le.1 h16a
    rcases resolveStrategy_mid s z1 hal h1 h16a' with ⟨t1, l1, hmem1, hg1, heq1⟩ | ⟨hnone, _⟩
    · have hl1v : l1 ∈ s.limits.map Prod.snd := List.mem_map.2 ⟨(t1, l1), hmem1, rfl⟩
      by_cases h16b : (16 : Int) ≤ z2
      · obtain ⟨m2, hm2, heq2⟩ := resolveStrategy_high_zoom s z2 hal h2 h16b hne
        rw [heq1, heq2]
        simpa [maxFeaturesOf] using hm2.2 l1 hl1v
      · have h16b' : z2 < 16 := not_le.1 h16b
        rcases resolveStrategy_mid s z2 hal h2 h16b' with ⟨t2, l2, hmem2, hg2, heq2⟩ | ⟨hnone2, _⟩
        · have ht12 : t1 ≤ t2 := hg2.2.2 t1 hg1.1 (le_trans hg1.2.1 h12)
          rw [heq1, heq2]
          simpa [maxFeaturesOf] using hmono (t1, l1) hmem1 (t2, l2) hmem2 ht12
        · exact absurd h2 (hnone2 s.minZoom hmin)
    · exact absurd h1 (hnone s.minZoom hmin)

/-- C4 amended: for every configured layer other than `land_polygons`,
with zoom1 < zoom2 both at or above the layer's `min_zoom`, the feature
limit returned by the resolver is non-decreasing in zoom (excluding the
`always_load` case); and an `always_load` layer never returns a no-load
policy at any zoom.  The original claim fails for `land_polygons`, whose
configured limits decrease after zoom 10. -/
theorem zoom_limit_monotone_except_land_polygons :
    (∀ name s, LAYER_ZOOM_STRATEGIES name = some s → name ≠ "land_polygons" →
      s.alwaysLoad = false → ∀ z1 z2 : Int, s.minZoom ≤ z1 → z1 < z2 →
      maxFeaturesOf (get_layer_zoom_strategy name z1) ≤
        maxFeaturesOf (get_layer_zoom_strategy name z2)) ∧
    (∀ name s, LAYER_ZOOM_STRATEGIES name = some s → s.alwaysLoad = true →
      ∀ z : Int, loadsData (get_layer_zoom_strategy name z) = true) := by
  constructor
  · intro name s hs hnm hal z1 z2 h1 hlt
    have hget1 : get_layer_zoom_strategy name z1 = resolveStrategy s z1 := by
      simp [get_layer_zoom_strategy, hs]
    have hget2 : get_layer_zoom_strategy name z2 = resolveStrategy s z2 := by
      simp [get_layer_zoom_strategy, hs]
    rw [hget1, hget2]
    unfold LAYER_ZOOM_STRATEGIES at hs
    split at hs <;> cases hs <;>
      first
        | exact resolveStrategy_limit_mono _ rfl (by decide) (by decide) z1 z2 h1 (le_of_lt hlt)
        | simp_all
  · intro name s hs hal z
    simp only [get_layer_zoom_strategy, hs]
    exact resolveStrategy_always_loads s z hal

/-- C4 counterexample: for the configured layer `land_polygons`,
zoom1 = 10 and zoom2 = 12 are both at or above `min_zoom` = 4, yet the
feature limit drops from 8000 to 6000. -/
theorem zoom_limit_not_monotone_land_polygons :
    LAYER_ZOOM_STRATEGIES "land_polygons" =
      some ⟨4, 20, false, [(4, 2000), (8, 5000), (10, 8000), (12, 6000), (14, 3000)]⟩ ∧
    (4 : Int) ≤ 10 ∧ (10 : Int) < 12 ∧
    ¬ maxFeaturesOf (get_layer_zoom_strategy "land_polygons" 10) ≤
        maxFeaturesOf (get_layer_zoom_strategy "land_polygons" 12) := by
  refine ⟨rfl, by decide, by decide, ?_⟩
  decide

/-- Witness for C4: the `roads` layer between zooms 8 and 10, and the
`always_load` layer `fences` at zoom 2. -/
theorem zoom_limit_monotone_witness :
    maxFeaturesOf (get_layer_zoom_strategy "roads" 8) ≤
      maxFeaturesOf (get_layer_zoom_strategy "roads" 10) ∧
    loadsData (get_layer_zoom_strategy "fences" 2) = true :=
  ⟨zoom_limit_monotone_except_land_polygons.1 "roads"
      ⟨7, 20, false, [(7, 3000), (9, 5000), (11, 10000), (13, 20000), (15, 30000)]⟩ rfl
      (by decide) rfl 8 10 (by decide) (by decide),
   zoom_limit_monotone_except_land_polygons.2 "fences"
      ⟨1, 20, true, [(1, 1000), (10, 3000), (15, 5000)]⟩ rfl rfl 2⟩

/-! ## Fence geometry inputs (`fence_services.py`)

`validate_geometry` and `calculate_fence_area` delegate to shapely/pyproj
(the spec's external Geometry Engine); they are abstracted as oracles in
`ServiceEnv` below.  The geometry payloads themselves are embedded. -/

/-- A geometry argument: either a WKT string or a GeoJSON dict with a
`type` and a `coordinates` list (exterior ring first, then holes). -/
inductive GeomInput where
  | wkt (s : String)
  | geojson (typ : String) (coordinates : List (List (Int × Int)))
deriving Repr, DecidableEq

/-- `','.join([f"{lon} {lat}" for lon, lat in ring])`. -/
def coordsToWkt (ring : List (Int × Int)) : String :=
  String.intercalate "," (ring.map (fun p => toString p.1 ++ " " ++ toString p.2))

/-- `convert_geojson_to_wkt` applied after the `isinstance` dispatch in
`create_fence`/`update_fence`: a WKT string passes through unchanged, a
GeoJSON polygon is serialised (raising on a non-polygon type or empty
coordinates, modeled as `Except.error`). -/
def toWktString : GeomInput → Except Unit String
  | .wkt s => .ok s
  | .geojson typ coords =>
    if typ = "Polygon" then
      match coords with
      | [] => .error ()
      | exterior :: holes =>
        let exteriorWkt := coordsToWkt exterior
        let holesWkt := holes.map (fun h => "(" ++ coordsToWkt h ++ ")")
        if holesWkt.isEmpty then .ok ("POLYGON((" ++ exteriorWkt ++ "))")
        else .ok ("POLYGON((" ++ exteriorWkt ++ ")," ++ String.intercalate "," holesWkt ++ ")")
    else .error ()

/-! ## Store and cache state -/

/-- A row of the `electronic_fences` table (the columns the verified
operations read or write). -/
structure Fence where
  id : Nat
  fenceName : String
  fenceStatus : String
  deletedAt : Option Nat
  geometryWkt : String
  fencePurpose : Option String
  fenceDescription : Option String
  fenceColor : String
  fenceOpacity : String
  fenceTags : Option String
  fenceConfig : Option String
  updatedAt : Nat
deriving Repr, DecidableEq

/-- A row of the `fence_overlaps` table. -/
structure OverlapRow where
  fenceId1 : Nat
  fenceId2 : Nat
  overlapArea : Nat
  overlapPercentage1 : Nat
  overlapPercentage2 : Nat
  overlapType : String
  detectedAt : Nat
deriving Repr, DecidableEq

/-- Combined system state: the persistent store plus the two cache tiers
of `services.py` (`memory_cache` and the Redis tier; cached payloads are
abstract handles).  `now` stands for `CURRENT_TIMESTAMP` /
`datetime.now()`. -/
structure SysState where
  fences : List Fence
  overlaps : List OverlapRow
  nextId : Nat
  now : Nat
  memoryCache : List (String × Nat)
  redisCache : List (String × Nat)
deriving Repr, DecidableEq

/-- `clear_fence_cache` from `fence_services.py` (lines 851-858): the body
only writes a log line — neither cache tier is touched. -/
def clear_fence_cache (s : SysState) : SysState := s

/-- `clear_cache` from `services.py` (lines 381-397): clears the memory
tier and flushes the Redis tier. -/
def clear_cache (s : SysState) : SysState :=
  { s with memoryCache := [], redisCache := [] }

/-! ## Overlap detection (`detect_fence_overlaps`) -/

/-- A row returned by the stored procedure `detect_fence_overlaps($1)`. -/
structure RawOverlap where
  overlappingFenceId : Nat
  overlapArea : Nat
  overlapPercentage : Nat
  overlapType : String
deriving Repr, DecidableEq

/-- Pairwise geometric answers of the Geometry Engine (overlap area in
square metres, percentage, classification), abstracted as oracles keyed
by the two fence ids. -/
structure GeoOracle where
  ovArea : Nat → Nat → Nat
  ovPct : Nat → Nat → Nat
  ovType : Nat → Nat → String

/-- Environment of one call to `detect_fence_overlaps`: either the store
round-trips succeed and the Geometry Engine answers via the oracle, or
some step raises (connection error, SQL error, ...), which the function's
blanket `except` turns into an empty result. -/
inductive DetectEnv where
  | ok (geo : GeoOracle)
  | failure (msg : String)

/-- Modelled from the spec: the stored operation `detect_overlaps(fence_id)`
(section 6) is not part of `src/`; per section 4.6 it performs pairwise
overlap testing against all other active fences and returns the positive
overlaps (area > 0) with their area/percentage/classification. -/
def db_detect_overlaps (geo : GeoOracle) (fid : Nat) (s : SysState) : List RawOverlap :=
  ((s.fences.filter (fun f => decide (f.id ≠ fid ∧ f.fenceStatus = "active"))).filter
      (fun f => decide (0 < geo.ovArea fid f.id))).map
    (fun f => ⟨f.id, geo.ovArea fid f.id, geo.ovPct fid f.id, geo.ovType fid f.id⟩)

/-- The upsert loop body of `detect_fence_overlaps` (lines 613-627):
`INSERT INTO fence_overlaps (fence_id_1, fence_id_2, ...) VALUES ($1=triggering, $2=other, ...)
ON CONFLICT (fence_id_1, fence_id_2) DO UPDATE SET ...` — the conflict key
is the ordered pair exactly as inserted. -/
def upsertOverlap (fid oid area pct1 pct2 : Nat) (typ : String) (now : Nat)
    (rows : List OverlapRow) : List OverlapRow :=
  if rows.any (fun r => r.fenceId1 == fid && r.fenceId2 == oid) then
    rows.map (fun r =>
      if r.fenceId1 == fid && r.fenceId2 == oid then
        { r with overlapArea := area, overlapPercentage1 := pct1,
                 overlapPercentage2 := pct2, overlapType := typ, detectedAt := now }
      else r)
  else rows ++ [⟨fid, oid, area, pct1, pct2, typ, now⟩]

/-- `detect_fence_overlaps(fence_id)` from `fence_services.py` (lines
587-633): on any failure the `except` branch logs and returns `[]`;
otherwise the stored procedure's rows are upserted one by one (the Python
passes `overlap_percentage` for side 1 and the literal `0` for side 2)
and the row list is returned. -/
def detect_fence_overlaps (env : DetectEnv) (fid : Nat) (s : SysState) :
    List RawOverlap × SysState :=
  match env with
  | .failure _ => ([], s)
  | .ok geo =>
    let rows := db_detect_overlaps geo fid s
    let overlaps' := rows.foldl
      (fun acc r =>
        upsertOverlap fid r.overlappingFenceId r.overlapArea r.overlapPercentage 0
          r.overlapType s.now acc)
      s.overlaps
    (rows, { s with overlaps := overlaps' })

/-! ## Fence CRUD (`create_fence`, `update_fence`, `delete_fence`) -/

/-- External collaborators of a fence mutation: `validate_geometry` and
`calculate_fence_area` (shapely/pyproj), the INSERT round-trip outcome,
and the overlap-detection environment. -/
structure ServiceEnv where
  validGeom : GeomInput → Bool
  areaOf : GeomInput → Nat
  insertOk : Bool
  detect : DetectEnv

/-- Arguments of `create_fence` that the embedding tracks (styling
defaults as in the source signature). -/
structure CreateArgs where
  fenceName : String
  fenceGeometry : GeomInput
  fencePurpose : Option String := none
  fenceDescription : Option String := none
  fenceColor : String := "#FF0000"
  fenceOpacity : String := "0.3"
  fenceTags : Option String := none
  fenceConfig : Option String := none

/-- Success payload of `create_fence` (the keys of the returned dict). -/
structure CreateOk where
  fenceId : Nat
  fenceName : String
  fenceArea : Nat
  overlapsDetected : Bool
  overlapsCount : Nat
deriving Repr, DecidableEq

/-- Result dict of `create_fence`: `success: true` with the payload, or
`success: false` with an error message. -/
inductive CreateResult where
  | ok (r : CreateOk)
  | err (msg : String)
deriving Repr, DecidableEq

/-- `create_fence` from `fence_services.py` (lines 144-211): validate,
convert, compute area, INSERT, detect overlaps, clear the fence cache,
return the result dict; any raise is converted to a failure dict. -/
def create_fence (env : ServiceEnv) (a : CreateArgs) (s : SysState) :
    CreateResult × SysState :=
  if env.validGeom a.fenceGeometry then
    match toWktString a.fenceGeometry with
    | .error _ => (.err "geometry conversion failed", s)
    | .ok w =>
      if env.insertOk then
        let fid := s.nextId
        let s1 := { s with
          fences := s.fences ++ [⟨fid, a.fenceName, "active", none, w, a.fencePurpose,
            a.fenceDescription, a.fenceColor, a.fenceOpacity, a.fenceTags, a.fenceConfig, s.now⟩],
          nextId := s.nextId + 1 }
        let d := detect_fence_overlaps env.detect fid s1
        (.ok ⟨fid, a.fenceName, env.areaOf a.fenceGeometry,
            decide (0 < d.1.length), d.1.length⟩,
          clear_fence_cache d.2)
      else (.err "insert failed", s)
  else (.err "invalid geometry", s)

/-- Optional arguments of `update_fence`; `none` means "field not
supplied". -/
structure UpdateArgs where
  fenceName : Option String := none
  fenceGeometry : Option GeomInput := none
  fencePurpose : Option String := none
  fenceDescription : Option String := none
  fenceColor : Option String := none
  fenceOpacity : Option String := none
  fenceTags : Option String := none
  fenceConfig : Option String := none

/-- SET clause `fence_name = $i`. -/
def setFenceName (n : String) : Fence → Fence := fun f => { f with fenceName := n }

/-- SET clause `fence_geometry = ST_GeomFromText($i, 4326)`. -/
def setGeometryWkt (w : String) : Fence → Fence := fun f => { f with geometryWkt := w }

/-- SET clause `fence_purpose = $i`. -/
def setFencePurpose (p : String) : Fence → Fence := fun f => { f with fencePurpose := some p }

/-- SET clause `fence_description = $i`. -/
def setFenceDescription (d : String) : Fence → Fence :=
  fun f => { f with fenceDescription := some d }

/-- SET clause `fence_color = $i`. -/
def setFenceColor (c : String) : Fence → Fence := fun f => { f with fenceColor := c }

/-- SET clause `fence_opacity = $i`. -/
def setFenceOpacity (o : String) : Fence → Fence := fun f => { f with fenceOpacity := o }

/-- SET clause `fence_tags = $i`. -/
def setFenceTags (t : String) : Fence → Fence := fun f => { f with fenceTags := some t }

/-- SET clause `fence_config = $i`. -/
def setFenceConfig (c : String) : Fence → Fence := fun f => { f with fenceConfig := some c }

/-- SET clause `updated_at = $i`. -/
def setUpdatedAt (ts : Nat) : Fence → Fence := fun f => { f with updatedAt := ts }

/-- `if arg is not None: update_fields.append(...)`. -/
def optField {α : Type} (o : Option α) (mk : α → Fence → Fence)
    (fields : List (Fence → Fence)) : List (Fence → Fence) :=
  match o with
  | some x => fields ++ [mk x]
  | none => fields

/-- The `update_fields` construction of `update_fence` (lines 229-283):
each supplied argument appends one SET clause, in source order; a supplied
geometry is validated (raising on failure) and converted. -/
def buildUpdateSetters (vg : GeomInput → Bool) (a : UpdateArgs) :
    Except String (List (Fence → Fence)) :=
  let fields := optField a.fenceName setFenceName []
  let geomStep : Except String (List (Fence → Fence)) :=
    match a.fenceGeometry with
    | none => .ok fields
    | some g =>
      if vg g then
        match toWktString g with
        | .ok w => .ok (fields ++ [setGeometryWkt w])
        | .error _ => .error "geometry conversion failed"
      else .error "invalid geometry"
  match geomStep with
  | .error m => .error m
  | .ok fields =>
    .ok (optField a.fenceConfig setFenceConfig
      (optField a.fenceTags setFenceTags
        (optField a.fenceOpacity setFenceOpacity
          (optField a.fenceColor setFenceColor
            (optField a.fenceDescription setFenceDescription
              (optField a.fencePurpose setFencePurpose fields))))))

/-- Apply the accumulated SET clauses to one row. -/
def applySetters (setters : List (Fence → Fence)) (f : Fence) : Fence :=
  setters.foldl (fun g st => st g) f

/-- Result dict of `update_fence`. -/
inductive UpdateResult where
  | ok (fenceId : Nat) (fenceName : String) (overlapsDetected : Bool) (overlapsCount : Nat)
  | err (msg : String)
deriving Repr, DecidableEq

/-- `update_fence` from `fence_services.py` (lines 213-330): build the
partial SET list; raise (failure dict) when it is empty, before the UPDATE
statement is ever issued; otherwise UPDATE the active row (appending
`updated_at`), raise NotFound-style when no row matches, re-detect
overlaps only when the geometry changed, clear the fence cache. -/
def update_fence (env : ServiceEnv) (fid : Nat) (a : UpdateArgs) (s : SysState) :
    UpdateResult × SysState :=
  match buildUpdateSetters env.validGeom a with
  | .error m => (.err m, s)
  | .ok fields =>
    if fields.isEmpty then (.err "no fields to update", s)
    else
      let setters := fields ++ [setUpdatedAt s.now]
      let matched := s.fences.filter (fun f => decide (f.id = fid ∧ f.fenceStatus = "active"))
      match matched with
      | [] => (.err "fence not found or deleted", s)
      | f0 :: _ =>
        let fences' := s.fences.map (fun f =>
          if f.id = fid ∧ f.fenceStatus = "active" then applySetters setters f else f)
        let s1 := { s with fences := fences' }
        let d :=
          if a.fenceGeometry.isSome then detect_fence_overlaps env.detect fid s1
          else ([], s1)
        (.ok fid (applySetters setters f0).fenceName (decide (0 < d.1.length)) d.1.length,
          clear_fence_cache d.2)

/-- Result dict of `delete_fence`. -/
inductive DeleteResult where
  | ok (fenceId : Nat) (fenceName : String)
  | err (msg : String)
deriving Repr, DecidableEq

/-- `delete_fence` from `fence_services.py` (lines 332-370):
`UPDATE ... SET fence_status='deleted', deleted_at=CURRENT_TIMESTAMP
WHERE id=$1 AND fence_status != 'deleted' RETURNING ...`; raising
NotFound-style when no row matched (before any other write), then
`DELETE FROM fence_overlaps WHERE fence_id_1=$1 OR fence_id_2=$1`, then
the (no-op) fence-cache clear. -/
def delete_fence (fid : Nat) (s : SysState) : DeleteResult × SysState :=
  let matched := s.fences.filter (fun f => decide (f.id = fid ∧ f.fenceStatus ≠ "deleted"))
  match matched with
  | [] => (.err "fence not found or already deleted", s)
  | f0 :: _ =>
    let fences' := s.fences.map (fun f =>
      if f.id = fid ∧ f.fenceStatus ≠ "deleted" then
        { f with fenceStatus := "deleted", deletedAt := some s.now }
      else f)
    let overlaps' := s.overlaps.filter (fun r => decide (¬ (r.fenceId1 = fid ∨ r.fenceId2 = fid)))
    (.ok fid f0.fenceName, clear_fence_cache { s with fences := fences', overlaps := overlaps' })

/-! ## Fence split (`split_fence`) -/

/-- Error causes raised by the split-line conversion, before the store is
contacted (source messages: line not a LineString / not enough points). -/
inductive SplitError where
  | notLineString
  | insufficientPoints
deriving Repr, DecidableEq

/-- The cutting line argument: GeoJSON LineString or WKT text. -/
inductive SplitLineInput where
  | wkt (s : String)
  | geojson (typ : String) (coordinates : List (Int × Int))
deriving Repr, DecidableEq

/-- Lines 717-730 of `split_fence`: a GeoJSON input must be a LineString
with at least 2 coordinates and is serialised to WKT; a WKT string is
passed through without any check. -/
def split_line_to_wkt : SplitLineInput → Except SplitError String
  | .geojson typ coords =>
    if typ ≠ "LineString" then .error .notLineString
    else if coords.length < 2 then .error .insufficientPoints
    else .ok ("LINESTRING(" ++ coordsToWkt coords ++ ")")
  | .wkt s => .ok s

/-- Outcome dict of `split_fence`; `preError` arises before the store is
contacted, every other constructor after the stored-procedure call. -/
inductive SplitOutcome where
  | preError (e : SplitError)
  | storeError (msg : String)
  | splitFailed
  | ok (originalId : Nat) (newIds : List Nat) (overlapsCount : Nat)
deriving Repr, DecidableEq

/-- `split_fence` from `fence_services.py` (lines 714-767): convert the
cutting line (raising before any store access on a bad GeoJSON line), call
the stored procedure `split_fence($1, ST_GeomFromText($2, 4326), $3)`
(abstracted as `store`), fail when it returns no parts, else detect
overlaps for every new fence id and clear the fence cache. -/
def split_fence (store : String → Except String (List Nat)) (denv : DetectEnv)
    (fid : Nat) (line : SplitLineInput) (s : SysState) : SplitOutcome × SysState :=
  match split_line_to_wkt line with
  | .error e => (.preError e, s)
  | .ok w =>
    match store w with
    | .error m => (.storeError m, s)
    | .ok ids =>
      if ids.isEmpty then (.splitFailed, s)
      else
        let acc := ids.foldl
          (fun (acc : Nat × SysState) nid =>
            let d := detect_fence_overlaps denv nid acc.2
            (acc.1 + d.1.length, d.2))
          (0, s)
        (.ok fid ids acc.1, clear_fence_cache acc.2)

/-- Number of vertices of a canonical WKT LINESTRING text (vertices are
comma-separated), used to state the claim for WKT inputs. -/
def wktPointCount (s : String) : Nat :=
  (s.data.filter (fun c => c == ',')).length + 1

/-! ## GeoJSON import (`import_fences_geojson`) -/

/-- One GeoJSON feature of an imported collection (the fields the loop
reads; remaining properties take the source defaults). -/
structure Feature where
  typ : String
  geometry : Option GeomInput
  fenceName : Option String
deriving Repr, DecidableEq

/-- Accumulator of the import loop. -/
structure ImportAcc where
  imported : Nat
  skipped : Nat
  errors : Nat
  s : SysState

/-- Body of the per-feature loop of `import_fences_geojson` (lines
970-1018): a non-Feature is skipped; a missing or invalid geometry counts
as an error; otherwise `create_fence` runs and its outcome increments
either the imported or the error counter.  Each branch increments one counter
and the loop always continues with the next feature. -/
def import_step (envAt : Nat → ServiceEnv) (acc : ImportAcc) (p : Nat × Feature) : ImportAcc :=
  if p.2.typ ≠ "Feature" then { acc with skipped := acc.skipped + 1 }
  else
    match p.2.geometry with
    | none => { acc with errors := acc.errors + 1 }
    | some g =>
      if (envAt p.1).validGeom g then
        let cr := create_fence (envAt p.1)
          { fenceName := p.2.fenceName.getD ("imported_fence_" ++ toString (acc.imported + 1)),
            fenceGeometry := g } acc.s
        match cr.1 with
        | .ok _ => { acc with imported := acc.imported + 1, s := cr.2 }
        | .err _ => { acc with errors := acc.errors + 1, s := cr.2 }
      else { acc with errors := acc.errors + 1 }

/-- Result dict of `import_fences_geojson` (the aggregate counters). -/
structure ImportResult where
  success : Bool
  importedCount : Nat
  skippedCount : Nat
  errorCount : Nat
  totalFeatures : Nat
deriving Repr, DecidableEq

/-- `import_fences_geojson` from `fence_services.py` (lines 955-1036):
reject a non-FeatureCollection or an empty feature list, then process
every feature independently and return the aggregate counts. -/
def import_fences_geojson (envAt : Nat → ServiceEnv) (typ : String)
    (features : List Feature) (s : SysState) : ImportResult × SysState :=
  if typ ≠ "FeatureCollection" then (⟨false, 0, 0, 0, 0⟩, s)
  else if features.isEmpty then (⟨false, 0, 0, 0, 0⟩, s)
  else
    let acc := features.enum.foldl (import_step envAt) ⟨0, 0, 0, s⟩
    (⟨true, acc.imported, acc.skipped, acc.errors, features.length⟩, acc.s)

/-- The fate of one feature under the import loop. -/
inductive FeatureFate where
  | imported
  | skipped
  | errored
deriving Repr, DecidableEq

/-- Exactly when the embedded `create_fence` succeeds: valid geometry,
convertible geometry, successful INSERT round-trip.  Success depends only
on the environment and the geometry, not on the running state or the
generated fence name. -/
def createOk (env : ServiceEnv) (g : GeomInput) : Bool :=
  env.validGeom g &&
    (match toWktString g with | .ok _ => true | .error _ => false) &&
    env.insertOk

/-- Classification of one feature, following the loop's branches. -/
def featureFate (envAt : Nat → ServiceEnv) (i : Nat) (f : Feature) : FeatureFate :=
  if f.typ ≠ "Feature" then .skipped
  else
    match f.geometry with
    | none => .errored
    | some g => if createOk (envAt i) g then .imported else .errored

/-! ## C10: update with no fields -/

/-- C10: calling `update_fence` while supplying none of the updatable
fields returns a failure dict ("no fields to update") and performs no
store write at all — the returned state is the input state unchanged, even
when it contains an existing active fence with the given id. -/
theorem update_without_fields_fails_without_write (env : ServiceEnv) (fid : Nat)
    (s : SysState) :
    update_fence env fid {} s = (.err "no fields to update", s) := rfl

/-! ## C2: coarse cache invalidation after mutations -/

/-- A populated system state: one active fence and one entry in each cache
tier, written before the mutation. -/
def cacheDemoState : SysState :=
  ⟨[⟨1, "A", "active", none, "POLYGON((0 0,1 0,1 1,0 0))", none, none, "#FF0000", "0.3",
      none, none, 0⟩],
    [], 2, 5, [("fence_detail:k", 7)], [("fence_detail:k", 7)]⟩

/-- C2: the cache clear invoked after every successful fence mutation
(`clear_fence_cache`) is the identity on both cache tiers, and a concrete
successful delete leaves the pre-mutation entry readable in both tiers —
unlike `clear_cache` (`services.py`), which would have emptied them. -/
theorem mutation_does_not_clear_cache :
    (∀ s : SysState, clear_fence_cache s = s) ∧
    (delete_fence 1 cacheDemoState).1 = .ok 1 "A" ∧
    (delete_fence 1 cacheDemoState).2.memoryCache = [("fence_detail:k", 7)] ∧
    (delete_fence 1 cacheDemoState).2.redisCache = [("fence_detail:k", 7)] ∧
    clear_cache (delete_fence 1 cacheDemoState).2 ≠ (delete_fence 1 cacheDemoState).2 :=
  ⟨fun _ => rfl, by decide, by decide, by decide, by decide⟩

/-! ## C7: split line with fewer than 2 vertices -/

/-- C7 amended: a structured (GeoJSON) LineString with fewer than 2
vertices makes `split_fence` fail with the insufficient-points error
before the store is contacted (the state is returned unchanged and the
store environment is never consulted); the WKT path has no such check. -/
theorem split_short_geojson_line_fails_before_store
    (store : String → Except String (List Nat)) (denv : DetectEnv) (fid : Nat)
    (coords : List (Int × Int)) (s : SysState) (h : coords.length < 2) :
    split_fence store denv fid (.geojson "LineString" coords) s =
      (.preError .insufficientPoints, s) := by
  have hconv : split_line_to_wkt (.geojson "LineString" coords) =
      .error .insufficientPoints := by
    simp [split_line_to_wkt, h]
  simp [split_fence, hconv]

/-- Witness for C7's amended theorem at a one-point GeoJSON line. -/
theorem split_short_geojson_line_witness :
    split_fence (fun _ => .ok [7, 8]) (.failure "geo down") 1
        (.geojson "LineString" [(0, 0)]) ⟨[], [], 9, 0, [], []⟩ =
      (.preError .insufficientPoints, ⟨[], [], 9, 0, [], []⟩) :=
  split_short_geojson_line_fails_before_store _ _ _ _ _ (by decide)

/-- C7 counterexample: a WKT cutting line with a single vertex is not
rejected before the store: the stored procedure is invoked and the split
reports success, contradicting the claim for WKT inputs. -/
theorem split_wkt_line_not_prechecked :
    wktPointCount "LINESTRING(0 0)" = 1 ∧
    (split_fence (fun _ => .ok [7, 8]) (.failure "geo down") 1
        (.wkt "LINESTRING(0 0)") ⟨[], [], 9, 0, [], []⟩).1 = .ok 1 [7, 8] 0 := by
  constructor
  · decide
  · rfl

/-! ## C9: silent overlap-detection failure -/

/-- C9: when overlap detection fails for any reason it returns `[]`
without raising, so a create — and likewise a geometry-changing update —
whose detection step failed still reports success with
`overlaps_detected = false` and `overlaps_count = 0`; at the public
interface either run is indistinguishable from one whose Geometry Engine
reports no overlap at all (the create and the update each return exactly
the same result and state under the two environments). -/
theorem overlap_detection_failure_silent
    (vg : GeomInput → Bool) (ao : GeomInput → Nat) (q : Nat → Nat → Nat)
    (t : Nat → Nat → String) (msg : String) (a : CreateArgs) (s : SysState) (fid : Nat) :
    detect_fence_overlaps (.failure msg) fid s = ([], s) ∧
    create_fence ⟨vg, ao, true, .failure msg⟩ a s =
      create_fence ⟨vg, ao, true, .ok ⟨fun _ _ => 0, q, t⟩⟩ a s ∧
    (vg a.fenceGeometry = true → ∀ w, toWktString a.fenceGeometry = .ok w →
      create_fence ⟨vg, ao, true, .failure msg⟩ a s =
        (.ok ⟨s.nextId, a.fenceName, ao a.fenceGeometry, false, 0⟩,
          { s with
            fences := s.fences ++ [⟨s.nextId, a.fenceName, "active", none, w,
              a.fencePurpose, a.fenceDescription, a.fenceColor, a.fenceOpacity,
              a.fenceTags, a.fenceConfig, s.now⟩],
            nextId := s.nextId + 1 })) ∧
    (∀ (fid2 : Nat) (ua : UpdateArgs),
      update_fence ⟨vg, ao, true, .failure msg⟩ fid2 ua s =
        update_fence ⟨vg, ao, true, .ok ⟨fun _ _ => 0, q, t⟩⟩ fid2 ua s) ∧
    (∀ (fid2 : Nat) (ua : UpdateArgs) (rid : Nat) (nm : String) (od : Bool) (oc : Nat),
      (update_fence ⟨vg, ao, true, .failure msg⟩ fid2 ua s).1 = .ok rid nm od oc →
      od = false ∧ oc = 0) := by
  have hzero : ∀ (fid' : Nat) (s' : SysState),
      detect_fence_overlaps (.ok ⟨fun _ _ => 0, q, t⟩) fid' s' = ([], s') := by
    intro fid' s'
    simp [detect_fence_overlaps, db_detect_overlaps]
  have hfail : ∀ (fid' : Nat) (s' : SysState),
      detect_fence_overlaps (.failure msg) fid' s' = ([], s') := fun _ _ => rfl
  refine ⟨rfl, ?_, ?_, ?_, ?_⟩
  · by_cases hv : vg a.fenceGeometry
    · cases hw : toWktString a.fenceGeometry with
      | error e => simp [create_fence, hv, hw]
      | ok w => simp [create_fence, hv, hw, hzero, hfail, clear_fence_cache]
    · simp [create_fence, hv]
  · intro hv w hw
    simp [create_fence, hv, hw, hfail, clear_fence_cache]
  · intro fid2 ua
    cases hb : buildUpdateSetters vg ua with
    | error m => simp [update_fence, hb]
    | ok fields =>
      by_cases hfe : fields.isEmpty
      · simp [update_fence, hb, hfe]
      · cases hm : s.fences.filter
            (fun f => decide (f.id = fid2) && decide (f.fenceStatus = "active")) with
        | nil => simp [update_fence, hb, hfe, hm]
        | cons f0 fs =>
          cases hg : ua.fenceGeometry with
          | none => simp [update_fence, hb, hfe, hm, hg]
          | some g => simp [update_fence, hb, hfe, hm, hg, hzero, hfail, clear_fence_cache]
  · intro fid2 ua rid nm od oc hres
    cases hb : buildUpdateSetters vg ua with
    | error m => simp [update_fence, hb] at hres
    | ok fields =>
      by_cases hfe : fields.isEmpty
      · simp [update_fence, hb, hfe] at hres
      · cases hm : s.fences.filter
            (fun f => decide (f.id = fid2) && decide (f.fenceStatus = "active")) with
        | nil => simp [update_fence, hb, hfe, hm] at hres
        | cons f0 fs =>
          cases hg : ua.fenceGeometry with
          | none =>
            simp [update_fence, hb, hfe, hm, hg, clear_fence_cache] at hres
            exact ⟨hres.2.2.1, hres.2.2.2.symm⟩
          | some g =>
            simp [update_fence, hb, hfe, hm, hg, hfail, clear_fence_cache] at hres
            exact ⟨hres.2.2.1, hres.2.2.2.symm⟩

/-- One active fence with id 1, for the update half of the C9 witness. -/
def updateDemoState : SysState :=
  ⟨[⟨1, "A", "active", none, "W", none, none, "#FF0000", "0.3", none, none, 0⟩],
    [], 2, 9, [], []⟩

/-- Witness for C9: a concrete create and a concrete geometry-changing
update whose detection round-trips raise still report success with
`overlaps_detected = false` and `overlaps_count = 0`. -/
theorem overlap_detection_failure_silent_witness :
    (create_fence ⟨fun _ => true, fun _ => 42, true, .failure "connection refused"⟩
        ⟨"F", .wkt "POLYGON((0 0,1 0,1 1,0 0))", none, none, "#FF0000", "0.3", none, none⟩
        ⟨[], [], 0, 9, [], []⟩ =
      (.ok ⟨0, "F", 42, false, 0⟩,
        ⟨[⟨0, "F", "active", none, "POLYGON((0 0,1 0,1 1,0 0))", none, none, "#FF0000",
            "0.3", none, none, 9⟩],
          [], 1, 9, [], []⟩)) ∧
    (update_fence ⟨fun _ => true, fun _ => 42, true, .failure "connection refused"⟩ 1
        ⟨none, some (.wkt "W2"), none, none, none, none, none, none⟩ updateDemoState).1 =
      .ok 1 "A" false 0 ∧
    (false = false ∧ (0 : Nat) = 0) :=
  ⟨(overlap_detection_failure_silent (fun _ => true) (fun _ => 42) (fun _ _ => 0)
      (fun _ _ => "") "connection refused"
      ⟨"F", .wkt "POLYGON((0 0,1 0,1 1,0 0))", none, none, "#FF0000", "0.3", none, none⟩
      ⟨[], [], 0, 9, [], []⟩ 0).2.2.1 rfl _ rfl,
   by decide,
   (overlap_detection_failure_silent (fun _ => true) (fun _ => 42) (fun _ _ => 0)
      (fun _ _ => "") "connection refused"
      ⟨"F", .wkt "POLYGON((0 0,1 0,1 1,0 0))", none, none, "#FF0000", "0.3", none, none⟩
      updateDemoState 0).2.2.2.2 1
      ⟨none, some (.wkt "W2"), none, none, none, none, none, none⟩ 1 "A" false 0 (by decide)⟩

/-! ## C6: soft-delete semantics -/

/-- C6: deleting a fence already in the deleted state fails with a
NotFound-style error and changes nothing; deleting an active fence
succeeds, marks the row deleted with the deletion timestamp, and removes
every overlap row in which the fence appears on either side of the pair,
keeping all other overlap rows.  (Fence ids are unique — the store's
primary key — stated as the Nodup hypothesis.) -/
theorem delete_fence_spec (fid : Nat) (s : SysState) :
    ((∀ f ∈ s.fences, f.id = fid → f.fenceStatus = "deleted") →
      delete_fence fid s = (.err "fence not found or already deleted", s)) ∧
    ((s.fences.map Fence.id).Nodup →
      (∃ f ∈ s.fences, f.id = fid ∧ f.fenceStatus ≠ "deleted") →
      (∃ nm, (delete_fence fid s).1 = .ok fid nm) ∧
      (∀ f ∈ (delete_fence fid s).2.fences, f.id = fid →
        f.fenceStatus = "deleted" ∧ f.deletedAt = some s.now) ∧
      (delete_fence fid s).2.overlaps =
        s.overlaps.filter (fun r => decide (¬ (r.fenceId1 = fid ∨ r.fenceId2 = fid))) ∧
      ∀ r ∈ (delete_fence fid s).2.overlaps, r.fenceId1 ≠ fid ∧ r.fenceId2 ≠ fid) := by
  constructor
  · intro h
    have hm : s.fences.filter (fun f => decide (f.id = fid ∧ f.fenceStatus ≠ "deleted")) = [] := by
      rw [List.filter_eq_nil_iff]
      intro f hf
      by_cases hid : f.id = fid
      · simp [hid, h f hf]
      · simp [hid]
    unfold delete_fence
    rw [hm]
  · rintro hnodup ⟨f0, hf0, hid, hst⟩
    have hmem : f0 ∈ s.fences.filter (fun f => decide (f.id = fid ∧ f.fenceStatus ≠ "deleted")) :=
      List.mem_filter.2 ⟨hf0, by simp [hid, hst]⟩
    cases hm : s.fences.filter (fun f => decide (f.id = fid ∧ f.fenceStatus ≠ "deleted")) with
    | nil =>
      rw [hm] at hmem
      simp at hmem
    | cons g gs =>
      have heq : delete_fence fid s =
          (.ok fid g.fenceName,
            { s with
              fences := s.fences.map (fun f =>
                if f.id = fid ∧ f.fenceStatus ≠ "deleted" then
                  { f with fenceStatus := "deleted", deletedAt := some s.now }
                else f),
              overlaps := s.overlaps.filter
                (fun r => decide (¬ (r.fenceId1 = fid ∨ r.fenceId2 = fid))) }) := by
        unfold delete_fence
        rw [hm]
        rfl
      refine ⟨⟨g.fenceName, by rw [heq]⟩, ?_, by rw [heq], ?_⟩
      · intro f hf hfid
        rw [heq] at hf
        simp only [List.mem_map] at hf
        obtain ⟨f', hf', hmap⟩ := hf
        by_cases hc : f'.id = fid ∧ f'.fenceStatus ≠ "deleted"
        · rw [if_pos hc] at hmap
          subst hmap
          exact ⟨rfl, rfl⟩
        · rw [if_neg hc] at hmap
          subst hmap
          exfalso
          have hff0 : f' = f0 :=
            List.inj_on_of_nodup_map hnodup hf' hf0 (by rw [hfid, hid])
          exact hc (by rw [hff0]; exact ⟨hid, hst⟩)
      · intro r hr
        rw [heq] at hr
        simp only [List.mem_filter, decide_eq_true_eq] at hr
        exact ⟨fun h1 => hr.2 (Or.inl h1), fun h2 => hr.2 (Or.inr h2)⟩

/-- A state holding only an already-deleted fence with id 1. -/
def deletedDemoState : SysState :=
  ⟨[⟨1, "A", "deleted", some 3, "W", none, none, "#FF0000", "0.3", none, none, 0⟩],
    [], 2, 9, [], []⟩

/-- A state holding two active fences and one overlap row mentioning
fence 1. -/
def activeDemoState : SysState :=
  ⟨[⟨1, "A", "active", none, "W", none, none, "#FF0000", "0.3", none, none, 0⟩,
    ⟨2, "B", "active", none, "W", none, none, "#FF0000", "0.3", none, none, 0⟩],
    [⟨1, 2, 5, 50, 0, "partial", 0⟩], 3, 9, [], []⟩

/-- Witness for C6 on concrete states: deleting the already-deleted fence
fails and changes nothing; deleting the active fence succeeds. -/
theorem delete_fence_spec_witness :
    delete_fence 1 deletedDemoState =
      (.err "fence not found or already deleted", deletedDemoState) ∧
    ∃ nm, (delete_fence 1 activeDemoState).1 = .ok 1 nm :=
  ⟨(delete_fence_spec 1 deletedDemoState).1 (by decide),
   ((delete_fence_spec 1 activeDemoState).2 (by decide)
      ⟨⟨1, "A", "active", none, "W", none, none, "#FF0000", "0.3", none, none, 0⟩,
        by decide, rfl, by decide⟩).1⟩

/-! ## C3: overlap rows per pair -/

/-- The ordered key `(fence_id_1, fence_id_2)` of each overlap row — the
conflict target of the upsert. -/
def orderedPairKeys (rows : List OverlapRow) : List (Nat × Nat) :=
  rows.map (fun r => (r.fenceId1, r.fenceId2))

lemma orderedPairKeys_upsert_nodup (fid oid area p1 p2 : Nat) (typ : String) (now : Nat)
    (rows : List OverlapRow) (h : (orderedPairKeys rows).Nodup) :
    (orderedPairKeys (upsertOverlap fid oid area p1 p2 typ now rows)).Nodup := by
  unfold upsertOverlap
  by_cases ha : rows.any (fun r => r.fenceId1 == fid && r.fenceId2 == oid)
  · rw [if_pos ha]
    have hkeys : orderedPairKeys (rows.map (fun r =>
        if r.fenceId1 == fid && r.fenceId2 == oid then
          { r with overlapArea := area, overlapPercentage1 := p1,
                   overlapPercentage2 := p2, overlapType := typ, detectedAt := now }
        else r)) = orderedPairKeys rows := by
      unfold orderedPairKeys
      rw [List.map_map]
      apply List.map_congr_left
      intro r hr
      by_cases h1 : r.fenceId1 = fid <;> by_cases h2 : r.fenceId2 = oid <;> simp [h1, h2]
    rw [hkeys]
    exact h
  · rw [if_neg ha]
    unfold orderedPairKeys
    rw [List.map_append]
    apply List.Nodup.append h (by simp)
    intro x hx hx'
    simp only [List.map_cons, List.map_nil, List.mem_singleton] at hx'
    subst hx'
    obtain ⟨r, hr, hkey⟩ := List.mem_map.1 hx
    apply ha
    rw [List.any_eq_true]
    refine ⟨r, hr, ?_⟩
    have h1 : r.fenceId1 = fid := congrArg Prod.fst hkey
    have h2 : r.fenceId2 = oid := congrArg Prod.snd hkey
    simp [h1, h2]

lemma orderedPairKeys_upsert_fold_nodup (fid now : Nat) (rows : List RawOverlap)
    (acc : List OverlapRow) (h : (orderedPairKeys acc).Nodup) :
    (orderedPairKeys (rows.foldl
      (fun acc r =>
        upsertOverlap fid r.overlappingFenceId r.overlapArea r.overlapPercentage 0
          r.overlapType now acc)
      acc)).Nodup := by
  induction rows generalizing acc with
  | nil => exact h
  | cons r rs ih =>
    exact ih _ (orderedPairKeys_upsert_nodup _ _ _ _ _ _ _ _ h)

/-- C3 amended: the overlap store keeps at most one row per ORDERED pair
(the upsert's conflict target is `(fence_id_1, fence_id_2)` exactly as
inserted, with the triggering fence first): a detection run preserves
uniqueness of the ordered keys.  The unordered-pair invariant of the
original claim does not hold — detection triggered from A upserts the row
(A, B) while detection triggered from B inserts the separate row (B, A),
as the counterexample shows. -/
theorem detect_preserves_ordered_pair_uniqueness (env : DetectEnv) (fid : Nat)
    (s : SysState) (h : (orderedPairKeys s.overlaps).Nodup) :
    (orderedPairKeys (detect_fence_overlaps env fid s).2.overlaps).Nodup := by
  cases env with
  | failure m => exact h
  | ok geo => exact orderedPairKeys_upsert_fold_nodup fid s.now _ s.overlaps h

/-- The Geometry Engine reporting a symmetric 5 square-metre overlap
between any two fences. -/
def overlapDemoOracle : GeoOracle :=
  ⟨fun _ _ => 5, fun _ _ => 50, fun _ _ => "partial"⟩

/-- Two active fences (ids 1 and 2) and an empty overlap store. -/
def overlapDemoState : SysState :=
  ⟨[⟨1, "A", "active", none, "W", none, none, "#FF0000", "0.3", none, none, 0⟩,
    ⟨2, "B", "active", none, "W", none, none, "#FF0000", "0.3", none, none, 0⟩],
    [], 3, 0, [], []⟩

/-- C3 counterexample: with two overlapping active fences, running
detection triggered from fence 1 and then from fence 2 leaves TWO rows for
the unordered pair {1, 2} — the ordered keys (1, 2) and (2, 1) — not one
row updated in place. -/
theorem overlap_rows_duplicate_unordered_pair :
    orderedPairKeys
      (detect_fence_overlaps (.ok overlapDemoOracle) 2
        ((detect_fence_overlaps (.ok overlapDemoOracle) 1 overlapDemoState).2)).2.overlaps =
      [(1, 2), (2, 1)] := by
  rfl

/-- Witness for C3's amended theorem: one detection run on the concrete
demo state keeps the ordered keys duplicate-free. -/
theorem detect_preserves_ordered_pair_uniqueness_witness :
    (orderedPairKeys
      (detect_fence_overlaps (.ok overlapDemoOracle) 1 overlapDemoState).2.overlaps).Nodup :=
  detect_preserves_ordered_pair_uniqueness _ _ _ (by decide)

/-! ## C8: batch import counters -/

lemma create_fence_ok_iff (env : ServiceEnv) (a : CreateArgs) (s : SysState) :
    (match (create_fence env a s).1 with | .ok _ => true | .err _ => false) =
      createOk env a.fenceGeometry := by
  by_cases hv : env.validGeom a.fenceGeometry
  · cases hw : toWktString a.fenceGeometry with
    | ok w =>
      by_cases hio : env.insertOk
      · simp [create_fence, createOk, hv, hw, hio]
      · simp [create_fence, createOk, hv, hw, hio]
    | error e => simp [create_fence, createOk, hv, hw]
  · simp [create_fence, createOk, hv]

lemma import_step_counts (envAt : Nat → ServiceEnv) (acc : ImportAcc) (p : Nat × Feature) :
    (import_step envAt acc p).imported =
      acc.imported + (if featureFate envAt p.1 p.2 = .imported then 1 else 0) ∧
    (import_step envAt acc p).skipped =
      acc.skipped + (if featureFate envAt p.1 p.2 = .skipped then 1 else 0) ∧
    (import_step envAt acc p).errors =
      acc.errors + (if featureFate envAt p.1 p.2 = .errored then 1 else 0) := by
  unfold import_step featureFate
  by_cases ht : p.2.typ ≠ "Feature"
  · simp [ht]
  · cases hg : p.2.geometry with
    | none => simp [ht, hg]
    | some g =>
      by_cases hv : (envAt p.1).validGeom g
      · have hcl := create_fence_ok_iff (envAt p.1)
          { fenceName := p.2.fenceName.getD ("imported_fence_" ++ toString (acc.imported + 1)),
            fenceGeometry := g } acc.s
        cases hcr : (create_fence (envAt p.1)
            { fenceName := p.2.fenceName.getD ("imported_fence_" ++ toString (acc.imported + 1)),
              fenceGeometry := g } acc.s).1 with
        | ok r =>
          rw [hcr] at hcl
          simp [ht, hg, hv, hcr, ← hcl]
        | err m =>
          rw [hcr] at hcl
          simp [ht, hg, hv, hcr, ← hcl]
      · have hco : createOk (envAt p.1) g = false := by
          simp [createOk, hv]
        simp [ht, hg, hv, hco]

lemma import_fold_counts (envAt : Nat → ServiceEnv) (l : List (Nat × Feature))
    (acc : ImportAcc) :
    (l.foldl (import_step envAt) acc).imported =
      acc.imported +
        (l.filter (fun p => decide (featureFate envAt p.1 p.2 = .imported))).length ∧
    (l.foldl (import_step envAt) acc).skipped =
      acc.skipped +
        (l.filter (fun p => decide (featureFate envAt p.1 p.2 = .skipped))).length ∧
    (l.foldl (import_step envAt) acc).errors =
      acc.errors +
        (l.filter (fun p => decide (featureFate envAt p.1 p.2 = .errored))).length := by
  induction l generalizing acc with
  | nil => simp
  | cons p ps ih =>
    obtain ⟨h1, h2, h3⟩ := import_step_counts envAt acc p
    obtain ⟨g1, g2, g3⟩ := ih (import_step envAt acc p)
    refine ⟨?_, ?_, ?_⟩ <;> simp only [List.foldl_cons, List.filter_cons]
    · rw [g1, h1]
      by_cases hf : featureFate envAt p.1 p.2 = .imported <;> simp [hf] <;> omega
    · rw [g2, h2]
      by_cases hf : featureFate envAt p.1 p.2 = .skipped <;> simp [hf] <;> omega
    · rw [g3, h3]
      by_cases hf : featureFate envAt p.1 p.2 = .errored <;> simp [hf] <;> omega

lemma fate_partition (envAt : Nat → ServiceEnv) (l : List (Nat × Feature)) :
    (l.filter (fun p => decide (featureFate envAt p.1 p.2 = .imported))).length +
    (l.filter (fun p => decide (featureFate envAt p.1 p.2 = .skipped))).length +
    (l.filter (fun p => decide (featureFate envAt p.1 p.2 = .errored))).length = l.length := by
  induction l with
  | nil => rfl
  | cons p ps ih =>
    cases hf : featureFate envAt p.1 p.2 <;> simp [List.filter_cons, hf] <;> omega

/-- C8: for every FeatureCollection with a non-empty feature list, the
importer reports success, `total_features` is the number of input features,
`imported + skipped + errored = total_features`, and each counter is
exactly the number of features whose own classification (independent of
every other feature) is imported/skipped/errored — so a failing feature
only increments the error counter and never aborts the rest. -/
theorem import_counts_partition (envAt : Nat → ServiceEnv) (features : List Feature)
    (s : SysState) (h : features ≠ []) :
    (import_fences_geojson envAt "FeatureCollection" features s).1.success = true ∧
    (import_fences_geojson envAt "FeatureCollection" features s).1.totalFeatures =
      features.length ∧
    (import_fences_geojson envAt "FeatureCollection" features s).1.importedCount +
      (import_fences_geojson envAt "FeatureCollection" features s).1.skippedCount +
      (import_fences_geojson envAt "FeatureCollection" features s).1.errorCount =
      features.length ∧
    (import_fences_geojson envAt "FeatureCollection" features s).1.importedCount =
      (features.enum.filter
        (fun p => decide (featureFate envAt p.1 p.2 = .imported))).length ∧
    (import_fences_geojson envAt "FeatureCollection" features s).1.skippedCount =
      (features.enum.filter
        (fun p => decide (featureFate envAt p.1 p.2 = .skipped))).length ∧
    (import_fences_geojson envAt "FeatureCollection" features s).1.errorCount =
      (features.enum.filter
        (fun p => decide (featureFate envAt p.1 p.2 = .errored))).length := by
  have hne : features.isEmpty = false := by
    cases features with
    | nil => exact absurd rfl h
    | cons f fs => rfl
  obtain ⟨h1, h2, h3⟩ := import_fold_counts envAt features.enum ⟨0, 0, 0, s⟩
  have hlen : features.enum.length = features.length := List.enum_length
  have heq : import_fences_geojson envAt "FeatureCollection" features s =
      (⟨true, (features.enum.foldl (import_step envAt) ⟨0, 0, 0, s⟩).imported,
        (features.enum.foldl (import_step envAt) ⟨0, 0, 0, s⟩).skipped,
        (features.enum.foldl (import_step envAt) ⟨0, 0, 0, s⟩).errors, features.length⟩,
        (features.enum.foldl (import_step envAt) ⟨0, 0, 0, s⟩).s) := by
    unfold import_fences_geojson
    rw [if_neg (by simp), if_neg (by simp [hne])]
  rw [heq]
  refine ⟨rfl, rfl, ?_, by simpa using h1, by simpa using h2, by simpa using h3⟩
  simp only
  rw [h1, h2, h3]
  simpa [hlen] using fate_partition envAt features.enum

/-- Witness for C8 at the spec's end-to-end scenario 5: three features
whose second has an unvalidatable geometry — the counters add up to 3. -/
theorem import_counts_partition_witness :
    (import_fences_geojson
        (fun _ => ⟨fun g => match g with | .wkt _ => true | .geojson _ _ => false,
          fun _ => 42, true, .failure "down"⟩)
        "FeatureCollection"
        [⟨"Feature", some (.wkt "POLYGON((0 0,1 0,1 1,0 0))"), none⟩,
         ⟨"Feature", some (.geojson "Polygon" []), none⟩,
         ⟨"Feature", some (.wkt "POLYGON((2 2,3 2,3 3,2 2))"), none⟩]
        ⟨[], [], 0, 0, [], []⟩).1.importedCount +
      (import_fences_geojson
        (fun _ => ⟨fun g => match g with | .wkt _ => true | .geojson _ _ => false,
          fun _ => 42, true, .failure "down"⟩)
        "FeatureCollection"
        [⟨"Feature", some (.wkt "POLYGON((0 0,1 0,1 1,0 0))"), none⟩,
         ⟨"Feature", some (.geojson "Polygon" []), none⟩,
         ⟨"Feature", some (.wkt "POLYGON((2 2,3 2,3 3,2 2))"), none⟩]
        ⟨[], [], 0, 0, [], []⟩).1.skippedCount +
      (import_fences_geojson
        (fun _ => ⟨fun g => match g with | .wkt _ => true | .geojson _ _ => false,
          fun _ => 42, true, .failure "down"⟩)
        "FeatureCollection"
        [⟨"Feature", some (.wkt "POLYGON((0 0,1 0,1 1,0 0))"), none⟩,
         ⟨"Feature", some (.geojson "Polygon" []), none⟩,
         ⟨"Feature", some (.wkt "POLYGON((2 2,3 2,3 3,2 2))"), none⟩]
        ⟨[], [], 0, 0, [], []⟩).1.errorCount = 3 :=
  (import_counts_partition
    (fun _ => ⟨fun g => match g with | .wkt _ => true | .geojson _ _ => false,
      fun _ => 42, true, .failure "down"⟩)
    [⟨"Feature", some (.wkt "POLYGON((0 0,1 0,1 1,0 0))"), none⟩,
     ⟨"Feature", some (.geojson "Polygon" []), none⟩,
     ⟨"Feature", some (.wkt "POLYGON((2 2,3 2,3 3,2 2))"), none⟩]
    ⟨[], [], 0, 0, [], []⟩ (by decide)).2.2.1

end GisMaps
